import Mathlib

/-!
Shallow embedding of the terraform-provider-zabbix handler code
(src/provider/resource_user.go and the user-group / proxy handler file).

Each Terraform handler is modelled as a pure function from the local
resource state and the behaviour of the remote Zabbix API client to the
pair (new local state, optional returned Go error).  Remote calls whose
request contents matter (create, update, delete) are passed in as
functions from the request the handler builds to the client's result;
lookup calls (the various Get calls) are passed in as their result,
since the handlers only branch on that result.
-/

namespace ZabbixProvider

/-- A Go `error` value, identified by its message.  `errors.New msg`
produces the error with message `msg`; errors coming back from the
remote client are arbitrary values of this type. -/
abbrev GoError := String

/-- Go `errors.New`. -/
def errorsNew (msg : String) : GoError := msg

/-- `zabbix.UserGroupID`: a reference to a user group by id. -/
structure UserGroupID where
  UserGroupID : String
deriving Repr, DecidableEq

/-- `zabbix.User`: the remote user record, with the fields this provider
reads and writes. -/
structure User where
  UserID : String
  Username : String
  Password : String
  RoleID : String
  Name : String
  Surname : String
  Groups : List UserGroupID
deriving Repr, DecidableEq

/-- `zabbix.UserGroupPermission`: one (host-group id, permission level)
request entry. -/
structure UserGroupPermission where
  ID : String
  Permission : Int
deriving Repr, DecidableEq

/-- `zabbix.UserGroup`: the remote user-group record. -/
structure UserGroup where
  UserGroupID : String
  Name : String
  DebugMode : Int
  GUIAccess : Int
  Status : Int
  Permissions : List UserGroupPermission
deriving Repr, DecidableEq

/-- `zabbix.Proxy`: the remote proxy record. -/
structure Proxy where
  ProxyID : String
  Name : String
  OperatingMode : Int
  Description : String
  TLSConnect : Int
  TLSAccept : Int
  TLSIssuer : String
  TLSSubject : String
  TLSPSKIdentity : String
  TLSPSK : String
  ProxyAddress : String
deriving Repr, DecidableEq

/-- Local Terraform state of a `zabbix_user` resource: the resource id
(`d.Id()`) plus the schema fields of `resourceUser`.  The `groups` set is
kept as the list `d.Get("groups").(*schema.Set).List()` iterates over. -/
structure UserState where
  id : String
  username : String
  password : String
  roleid : String
  name : String
  surname : String
  groups : List String
deriving Repr, DecidableEq

/-- One entry of the `host_permission` schema list: a map with an "id"
string and a "permission" int. -/
structure HostPermissionEntry where
  id : String
  permission : Int
deriving Repr, DecidableEq

/-- Local Terraform state of a `zabbix_usergroup` resource: the resource
id plus the schema fields of `resourceUserGroup`. -/
structure UserGroupState where
  id : String
  name : String
  debug_mode : Int
  gui_access : Int
  status : Int
  host_permission : List HostPermissionEntry
deriving Repr, DecidableEq

/-- Local Terraform state of a `zabbix_proxy` resource: the resource id
plus the schema fields of `resourceProxy`. -/
structure ProxyState where
  id : String
  name : String
  operating_mode : Int
  description : String
  tls_connect : Int
  tls_accept : Int
  tls_issuer : String
  tls_subject : String
  tls_psk_identity : String
  tls_psk : String
  proxy_address : String
deriving Repr, DecidableEq

/-! ## User handlers (src/provider/resource_user.go) -/

/-- `resourceUserGroupsV1`: translate the local `groups` set into
`zabbix.UserGroupID` request entries (`make` + indexed assignment over
the set's list, i.e. an order-preserving map). -/
def resourceUserGroupsV1 (groups : List String) : List UserGroupID :=
  groups.map fun raw => { UserGroupID := raw }

/-- The single `zabbix.User` request struct `resourceUserCreate` builds
from the local schema fields (UserID left at its zero value). -/
def userCreateItem (d : UserState) : User :=
  { UserID := ""
    Username := d.username
    Password := d.password
    RoleID := d.roleid
    Name := d.name
    Surname := d.surname
    Groups := resourceUserGroupsV1 d.groups }

/-- `userRead`: common user read.  `usersGetResult` is the result of
`api.UsersGet(params)`.  Branches exactly as the source: an error is
returned unchanged; zero records clears the id and succeeds; more than
one record returns `errors.New("multiple Users found")`; exactly one
record populates id, username, roleid, name and surname. -/
def userRead (d : UserState) (usersGetResult : Except GoError (List User)) :
    UserState × Option GoError :=
  match usersGetResult with
  | .error err => (d, some err)
  | .ok Users =>
    match Users with
    | [] => ({ d with id := "" }, none)
    | [t] =>
        ({ d with
            id := t.UserID
            username := t.Username
            roleid := t.RoleID
            name := t.Name
            surname := t.Surname }, none)
    | _ :: _ :: _ => (d, some (errorsNew "multiple Users found"))

/-- `resourceUserRead`: resource read handler; calls `userRead` with
params `{"userids": d.Id()}`. -/
def resourceUserRead (d : UserState)
    (usersGetResult : Except GoError (List User)) :
    UserState × Option GoError :=
  userRead d usersGetResult

/-- `dataUserRead`: data-source read handler; calls `userRead` with
params `{"filter": {"username": d.Get("username")}}`. -/
def dataUserRead (d : UserState)
    (usersGetResult : Except GoError (List User)) :
    UserState × Option GoError :=
  userRead d usersGetResult

/-- `resourceUserCreate`: build the single-item request list from the
local fields, call `api.UsersCreate`; on success the client has filled
`items[0].UserID` with the created identity (the `String` the modelled
call returns), which is stored with `d.SetId` before delegating to
`resourceUserRead`. -/
def resourceUserCreate (d : UserState)
    (usersCreate : List User → Except GoError String)
    (usersGetResult : Except GoError (List User)) :
    UserState × Option GoError :=
  match usersCreate [userCreateItem d] with
  | .error err => (d, some err)
  | .ok createdID => resourceUserRead { d with id := createdID } usersGetResult

/-- The `zabbix.User` request struct `resourceUserUpdate` builds from the
resource id and the local schema fields. -/
def userUpdateItem (d : UserState) : User :=
  { UserID := d.id
    Username := d.username
    Password := d.password
    RoleID := d.roleid
    Name := d.name
    Surname := d.surname
    Groups := resourceUserGroupsV1 d.groups }

/-- `resourceUserUpdate`: build the single-item request list, call
`api.UsersUpdate`; an error is returned unchanged, success delegates to
`resourceUserRead`. -/
def resourceUserUpdate (d : UserState)
    (usersUpdate : List User → Option GoError)
    (usersGetResult : Except GoError (List User)) :
    UserState × Option GoError :=
  match usersUpdate [userUpdateItem d] with
  | some err => (d, some err)
  | none => resourceUserRead d usersGetResult

/-- `resourceUserDelete`: return `api.UsersDeleteByIds([d.Id()])`
unchanged; the local state is not touched by the handler. -/
def resourceUserDelete (d : UserState)
    (usersDeleteByIds : List String → Option GoError) :
    UserState × Option GoError :=
  (d, usersDeleteByIds [d.id])

/-! ## User group handlers -/

/-- `resourceHostGroupPermissionsV1`: translate the local
`host_permission` list into `zabbix.UserGroupPermission` request entries
(loop over the entries appending one request per entry, starting from a
nil slice). -/
def resourceHostGroupPermissionsV1 (permissions : List HostPermissionEntry) :
    List UserGroupPermission :=
  permissions.foldl
    (fun permissionsRequests permission =>
      permissionsRequests ++ [{ ID := permission.id
                                Permission := permission.permission }])
    []

/-- The single `zabbix.UserGroup` request struct `resourceUserGroupCreate`
builds from the local schema fields (UserGroupID left at its zero value). -/
def userGroupCreateItem (d : UserGroupState) : UserGroup :=
  { UserGroupID := ""
    Name := d.name
    DebugMode := d.debug_mode
    GUIAccess := d.gui_access
    Status := d.status
    Permissions := resourceHostGroupPermissionsV1 d.host_permission }

/-- `userGroupRead`: common user-group read.  Branches exactly as the
source: an error from `api.UserGroupsGet` is returned unchanged; zero
records clears the id and succeeds; more than one record returns
`errors.New("multiple UserGroups found")`; exactly one record populates
id, name, debug_mode, gui_access and status. -/
def userGroupRead (d : UserGroupState)
    (userGroupsGetResult : Except GoError (List UserGroup)) :
    UserGroupState × Option GoError :=
  match userGroupsGetResult with
  | .error err => (d, some err)
  | .ok UserGroups =>
    match UserGroups with
    | [] => ({ d with id := "" }, none)
    | [t] =>
        ({ d with
            id := t.UserGroupID
            name := t.Name
            debug_mode := t.DebugMode
            gui_access := t.GUIAccess
            status := t.Status }, none)
    | _ :: _ :: _ => (d, some (errorsNew "multiple UserGroups found"))

/-- `resourceUserGroupRead`: resource read handler; calls `userGroupRead`
with params `{"usrgrpids": d.Id()}`. -/
def resourceUserGroupRead (d : UserGroupState)
    (userGroupsGetResult : Except GoError (List UserGroup)) :
    UserGroupState × Option GoError :=
  userGroupRead d userGroupsGetResult

/-- `dataUserGroupRead`: data-source read handler; calls `userGroupRead`
with params `{"filter": {"name": d.Get("name")}}`. -/
def dataUserGroupRead (d : UserGroupState)
    (userGroupsGetResult : Except GoError (List UserGroup)) :
    UserGroupState × Option GoError :=
  userGroupRead d userGroupsGetResult

/-- `resourceUserGroupCreate`: build the single-item request list, call
`api.UserGroupsCreate`; on success the client has filled
`items[0].UserGroupID` with the created identity (the `String` the
modelled call returns), which is stored with `d.SetId` before delegating
to `resourceUserGroupRead`. -/
def resourceUserGroupCreate (d : UserGroupState)
    (userGroupsCreate : List UserGroup → Except GoError String)
    (userGroupsGetResult : Except GoError (List UserGroup)) :
    UserGroupState × Option GoError :=
  match userGroupsCreate [userGroupCreateItem d] with
  | .error err => (d, some err)
  | .ok createdID =>
      resourceUserGroupRead { d with id := createdID } userGroupsGetResult

/-- The `zabbix.UserGroup` request struct `resourceUserGroupUpdate`
builds from the resource id and the local schema fields. -/
def userGroupUpdateItem (d : UserGroupState) : UserGroup :=
  { UserGroupID := d.id
    Name := d.name
    DebugMode := d.debug_mode
    GUIAccess := d.gui_access
    Status := d.status
    Permissions := resourceHostGroupPermissionsV1 d.host_permission }

/-- `resourceUserGroupUpdate`: build the single-item request list, call
`api.UserGroupsUpdate`; an error is returned unchanged, success delegates
to `resourceUserGroupRead`. -/
def resourceUserGroupUpdate (d : UserGroupState)
    (userGroupsUpdate : List UserGroup → Option GoError)
    (userGroupsGetResult : Except GoError (List UserGroup)) :
    UserGroupState × Option GoError :=
  match userGroupsUpdate [userGroupUpdateItem d] with
  | some err => (d, some err)
  | none => resourceUserGroupRead d userGroupsGetResult

/-- `resourceUserGroupDelete`: return
`api.UserGroupsDeleteByIds([d.Id()])` unchanged; the local state is not
touched by the handler. -/
def resourceUserGroupDelete (d : UserGroupState)
    (userGroupsDeleteByIds : List String → Option GoError) :
    UserGroupState × Option GoError :=
  (d, userGroupsDeleteByIds [d.id])

/-! ## Proxy handlers -/

/-- The `zabbix.Proxy` request struct `resourceProxyCreate` builds: note
that the source fills `ProxyID` from `d.Id()` even on create. -/
def proxyCreateItem (d : ProxyState) : Proxy :=
  { ProxyID := d.id
    Name := d.name
    OperatingMode := d.operating_mode
    Description := d.description
    TLSConnect := d.tls_connect
    TLSAccept := d.tls_accept
    TLSIssuer := d.tls_issuer
    TLSSubject := d.tls_subject
    TLSPSKIdentity := d.tls_psk_identity
    TLSPSK := d.tls_psk
    ProxyAddress := d.proxy_address }

/-- `proxyRead`: common proxy read.  Branches exactly as the source: an
error from `api.ProxiesGet` is returned unchanged; zero records clears
the id and succeeds; more than one record returns
`errors.New("multiple proxys found")`; exactly one record populates the
id and all ten schema fields. -/
def proxyRead (d : ProxyState)
    (proxiesGetResult : Except GoError (List Proxy)) :
    ProxyState × Option GoError :=
  match proxiesGetResult with
  | .error err => (d, some err)
  | .ok proxys =>
    match proxys with
    | [] => ({ d with id := "" }, none)
    | [proxy] =>
        ({ d with
            id := proxy.ProxyID
            name := proxy.Name
            operating_mode := proxy.OperatingMode
            description := proxy.Description
            tls_connect := proxy.TLSConnect
            tls_accept := proxy.TLSAccept
            tls_issuer := proxy.TLSIssuer
            tls_subject := proxy.TLSSubject
            tls_psk_identity := proxy.TLSPSKIdentity
            tls_psk := proxy.TLSPSK
            proxy_address := proxy.ProxyAddress }, none)
    | _ :: _ :: _ => (d, some (errorsNew "multiple proxys found"))

/-- `resourceProxyRead`: resource read handler; calls `proxyRead` with
params `{"proxyids": d.Id()}`. -/
def resourceProxyRead (d : ProxyState)
    (proxiesGetResult : Except GoError (List Proxy)) :
    ProxyState × Option GoError :=
  proxyRead d proxiesGetResult

/-- `d.GetOk(k)` on the proxy data-source schema: the only lookup key is
"name", and Terraform's GetOk reports a string field as present only when
it is set to a non-zero (non-empty) value. -/
def ProxyState.getOk (d : ProxyState) (k : String) : Option String :=
  if k = "name" then (if d.name = "" then none else some d.name) else none

/-- `dataProxyRead`: build the lookup filter from `lookups = ["name"]`
via `GetOk`; if the filter ends up empty return
`errors.New("no proxy lookup attribute")`, otherwise delegate to
`proxyRead`. -/
def dataProxyRead (d : ProxyState)
    (proxiesGetResult : Except GoError (List Proxy)) :
    ProxyState × Option GoError :=
  let lookups : List String := ["name"]
  let filter := lookups.foldl
    (fun filter k =>
      match d.getOk k with
      | some v => filter ++ [(k, v)]
      | none => filter)
    ([] : List (String × String))
  if filter.length < 1 then
    (d, some (errorsNew "no proxy lookup attribute"))
  else
    proxyRead d proxiesGetResult

/-- `resourceProxyCreate`: build the single-item request list, call
`api.ProxiesCreate`; on success the client has filled
`proxies[0].ProxyID` with the created identity (the `String` the
modelled call returns), which is stored with `d.SetId` before delegating
to `resourceProxyRead`. -/
def resourceProxyCreate (d : ProxyState)
    (proxiesCreate : List Proxy → Except GoError String)
    (proxiesGetResult : Except GoError (List Proxy)) :
    ProxyState × Option GoError :=
  match proxiesCreate [proxyCreateItem d] with
  | .error err => (d, some err)
  | .ok createdID => resourceProxyRead { d with id := createdID } proxiesGetResult

/-- The `zabbix.Proxy` request struct `resourceProxyUpdate` builds from
the resource id and the local schema fields. -/
def proxyUpdateItem (d : ProxyState) : Proxy :=
  { ProxyID := d.id
    Name := d.name
    OperatingMode := d.operating_mode
    Description := d.description
    TLSConnect := d.tls_connect
    TLSAccept := d.tls_accept
    TLSIssuer := d.tls_issuer
    TLSSubject := d.tls_subject
    TLSPSKIdentity := d.tls_psk_identity
    TLSPSK := d.tls_psk
    ProxyAddress := d.proxy_address }

/-- `resourceProxyUpdate`: build the single-item request list, call
`api.ProxiesUpdate`; an error is returned unchanged, success delegates to
`resourceProxyRead`. -/
def resourceProxyUpdate (d : ProxyState)
    (proxiesUpdate : List Proxy → Option GoError)
    (proxiesGetResult : Except GoError (List Proxy)) :
    ProxyState × Option GoError :=
  match proxiesUpdate [proxyUpdateItem d] with
  | some err => (d, some err)
  | none => resourceProxyRead d proxiesGetResult

/-- `resourceProxyDelete`: return `api.ProxiesDeleteByIds([d.Id()])`
unchanged; the local state is not touched by the handler. -/
def resourceProxyDelete (d : ProxyState)
    (proxiesDeleteByIds : List String → Option GoError) :
    ProxyState × Option GoError :=
  (d, proxiesDeleteByIds [d.id])

/-- Helper predicate: the optional error `e?` returned by a handler,
when present, satisfies `P`. -/
def OptErr (e? : Option GoError) (P : GoError → Prop) : Prop :=
  match e? with
  | none => True
  | some e => P e

/-! ## Theorems -/

/-- C1, counterexample: a user read whose lookup succeeds with TWO
matching records does NOT set the resource id to the empty string — the
id keeps its prior value "42". -/
theorem C1_counterexample :
    (userRead
        { id := "42", username := "u", password := "p", roleid := "r",
          name := "n", surname := "s", groups := [] }
        (.ok
          [{ UserID := "1", Username := "a", Password := "", RoleID := "",
             Name := "", Surname := "", Groups := [] },
           { UserID := "2", Username := "b", Password := "", RoleID := "",
             Name := "", Surname := "", Groups := [] }])).1.id = "42" ∧
    ("42" : String) ≠ "" := by
  exact ⟨rfl, by decide⟩

/-- C1 (amended): for every read operation of every entity, a successful
lookup returning zero records leaves the local state with an empty
identity; a successful lookup returning more than one record leaves the
identity (and the whole local state) unchanged and instead returns the
synthesized "multiple ... found" error. -/
theorem C1_amended :
    ((∀ d : UserState, (userRead d (.ok [])).1.id = "") ∧
     (∀ (d : UserState) (u1 u2 : User) (us : List User),
       (userRead d (.ok (u1 :: u2 :: us))).1 = d ∧
       (userRead d (.ok (u1 :: u2 :: us))).2 =
         some (errorsNew "multiple Users found"))) ∧
    ((∀ d : UserGroupState, (userGroupRead d (.ok [])).1.id = "") ∧
     (∀ (d : UserGroupState) (g1 g2 : UserGroup) (gs : List UserGroup),
       (userGroupRead d (.ok (g1 :: g2 :: gs))).1 = d ∧
       (userGroupRead d (.ok (g1 :: g2 :: gs))).2 =
         some (errorsNew "multiple UserGroups found"))) ∧
    ((∀ d : ProxyState, (proxyRead d (.ok [])).1.id = "") ∧
     (∀ (d : ProxyState) (p1 p2 : Proxy) (ps : List Proxy),
       (proxyRead d (.ok (p1 :: p2 :: ps))).1 = d ∧
       (proxyRead d (.ok (p1 :: p2 :: ps))).2 =
         some (errorsNew "multiple proxys found"))) := by
  refine ⟨⟨?_, ?_⟩, ⟨?_, ?_⟩, ⟨?_, ?_⟩⟩ <;> intros <;>
    first
    | exact ⟨rfl, rfl⟩
    | rfl

/-- C3: for every read operation of every entity, a successful lookup
returning more than one record fails with the locally synthesized
"multiple ... found" error. -/
theorem C3_multiple_matches_fail :
    (∀ (d : UserState) (u1 u2 : User) (us : List User),
      (userRead d (.ok (u1 :: u2 :: us))).2 =
        some (errorsNew "multiple Users found")) ∧
    (∀ (d : UserGroupState) (g1 g2 : UserGroup) (gs : List UserGroup),
      (userGroupRead d (.ok (g1 :: g2 :: gs))).2 =
        some (errorsNew "multiple UserGroups found")) ∧
    (∀ (d : ProxyState) (p1 p2 : Proxy) (ps : List Proxy),
      (proxyRead d (.ok (p1 :: p2 :: ps))).2 =
        some (errorsNew "multiple proxys found")) := by
  refine ⟨?_, ?_, ?_⟩ <;> intros <;> rfl

/-- C4: for every read operation of every entity, a successful lookup
returning zero records sets the local identity to the empty string,
changes nothing else, and returns success (no error). -/
theorem C4_zero_matches_clear_identity :
    (∀ d : UserState, userRead d (.ok []) = ({ d with id := "" }, none)) ∧
    (∀ d : UserGroupState,
      userGroupRead d (.ok []) = ({ d with id := "" }, none)) ∧
    (∀ d : ProxyState, proxyRead d (.ok []) = ({ d with id := "" }, none)) := by
  refine ⟨?_, ?_, ?_⟩ <;> intros <;> rfl

/-- C5, counterexample: the user's `password` is a schema field of the
user resource, yet a single-match read does not set it from the record's
Password field — with prior local value "local" and record value
"remote" the state keeps "local". -/
theorem C5_counterexample :
    (userRead
        { id := "", username := "", password := "local", roleid := "",
          name := "", surname := "", groups := [] }
        (.ok [{ UserID := "1", Username := "a", Password := "remote",
                RoleID := "r", Name := "n", Surname := "s",
                Groups := [] }])).1.password = "local" ∧
    ("local" : String) ≠ "remote" := by
  exact ⟨rfl, by decide⟩

/-- C5 (amended): a successful lookup returning exactly one record sets
the local identity to that record's id, sets the read-back schema fields
from the record (user: username, roleid, name, surname — not password or
groups; user group: name, debug_mode, gui_access, status — not
host_permission; proxy: all ten schema fields), and returns success. -/
theorem C5_amended_single_match_populates :
    (∀ (d : UserState) (t : User),
      userRead d (.ok [t]) =
        ({ d with
            id := t.UserID
            username := t.Username
            roleid := t.RoleID
            name := t.Name
            surname := t.Surname }, none)) ∧
    (∀ (d : UserGroupState) (t : UserGroup),
      userGroupRead d (.ok [t]) =
        ({ d with
            id := t.UserGroupID
            name := t.Name
            debug_mode := t.DebugMode
            gui_access := t.GUIAccess
            status := t.Status }, none)) ∧
    (∀ (d : ProxyState) (proxy : Proxy),
      proxyRead d (.ok [proxy]) =
        ({ d with
            id := proxy.ProxyID
            name := proxy.Name
            operating_mode := proxy.OperatingMode
            description := proxy.Description
            tls_connect := proxy.TLSConnect
            tls_accept := proxy.TLSAccept
            tls_issuer := proxy.TLSIssuer
            tls_subject := proxy.TLSSubject
            tls_psk_identity := proxy.TLSPSKIdentity
            tls_psk := proxy.TLSPSK
            proxy_address := proxy.ProxyAddress }, none)) := by
  refine ⟨?_, ?_, ?_⟩ <;> intros <;> rfl

/-- C10: a user read that finds exactly one record writes only the
resource id and the fields username, roleid, name and surname; the
password and groups fields keep their prior local values. -/
theorem C10_user_read_frame (d : UserState) (t : User) :
    (userRead d (.ok [t])).1.password = d.password ∧
    (userRead d (.ok [t])).1.groups = d.groups ∧
    (userRead d (.ok [t])).1.id = t.UserID ∧
    (userRead d (.ok [t])).1.username = t.Username ∧
    (userRead d (.ok [t])).1.roleid = t.RoleID ∧
    (userRead d (.ok [t])).1.name = t.Name ∧
    (userRead d (.ok [t])).1.surname = t.Surname ∧
    (userRead d (.ok [t])).2 = none :=
  ⟨rfl, rfl, rfl, rfl, rfl, rfl, rfl, rfl⟩

/-- Helper: the append-accumulating fold of
`resourceHostGroupPermissionsV1` is the order-preserving map, for any
starting accumulator. -/
theorem hostPermissions_foldl_eq (ps : List HostPermissionEntry)
    (acc : List UserGroupPermission) :
    ps.foldl
      (fun permissionsRequests permission =>
        permissionsRequests ++ [{ ID := permission.id
                                  Permission := permission.permission }])
      acc =
      acc ++ ps.map (fun p => { ID := p.id, Permission := p.permission }) := by
  induction ps generalizing acc with
  | nil => simp
  | cons p ps ih => simp [List.foldl_cons, ih]

/-- C6: translating a `host_permission` list yields a list of the same
length whose i-th element carries the i-th entry's "id" as ID and
"permission" as Permission, in order (it is exactly the element-wise
map); an empty input yields an empty result. -/
theorem C6_host_permission_translation (ps : List HostPermissionEntry) :
    (resourceHostGroupPermissionsV1 ps).length = ps.length ∧
    resourceHostGroupPermissionsV1 ps =
      ps.map (fun p => { ID := p.id, Permission := p.permission }) ∧
    (∀ i : Nat,
      (resourceHostGroupPermissionsV1 ps).getD i { ID := "", Permission := 0 } =
        { ID := (ps.getD i { id := "", permission := 0 }).id
          Permission := (ps.getD i { id := "", permission := 0 }).permission }) ∧
    resourceHostGroupPermissionsV1 ([] : List HostPermissionEntry) = [] := by
  have hmap : resourceHostGroupPermissionsV1 ps =
      ps.map (fun p => { ID := p.id, Permission := p.permission }) := by
    simpa using hostPermissions_foldl_eq ps []
  refine ⟨by rw [hmap]; simp, hmap, ?_, rfl⟩
  intro i
  rw [hmap]
  clear hmap
  induction ps generalizing i with
  | nil => simp [List.getD]
  | cons p ps ih =>
    cases i with
    | zero => simp [List.getD]
    | succ j => simpa [List.getD] using ih j

/-- C7: record-mapping round-trip.  Populating local state from a
single-match read and rebuilding the update-request struct reproduces the
original record: for the proxy, the whole struct (all eleven fields); for
user and user group, every field the read populates. -/
theorem C7_round_trip :
    (∀ (d : ProxyState) (p : Proxy),
      proxyUpdateItem ((proxyRead d (.ok [p])).1) = p) ∧
    (∀ (d : UserState) (t : User),
      (userUpdateItem ((userRead d (.ok [t])).1)).UserID = t.UserID ∧
      (userUpdateItem ((userRead d (.ok [t])).1)).Username = t.Username ∧
      (userUpdateItem ((userRead d (.ok [t])).1)).RoleID = t.RoleID ∧
      (userUpdateItem ((userRead d (.ok [t])).1)).Name = t.Name ∧
      (userUpdateItem ((userRead d (.ok [t])).1)).Surname = t.Surname) ∧
    (∀ (d : UserGroupState) (g : UserGroup),
      (userGroupUpdateItem ((userGroupRead d (.ok [g])).1)).UserGroupID =
        g.UserGroupID ∧
      (userGroupUpdateItem ((userGroupRead d (.ok [g])).1)).Name = g.Name ∧
      (userGroupUpdateItem ((userGroupRead d (.ok [g])).1)).DebugMode =
        g.DebugMode ∧
      (userGroupUpdateItem ((userGroupRead d (.ok [g])).1)).GUIAccess =
        g.GUIAccess ∧
      (userGroupUpdateItem ((userGroupRead d (.ok [g])).1)).Status =
        g.Status) := by
  refine ⟨?_, ?_, ?_⟩ <;> intros <;>
    first
    | rfl
    | exact ⟨rfl, rfl, rfl, rfl, rfl⟩

/-- C8: each create handler builds the single-item request list from the
local schema fields, makes one remote create call on exactly that list,
and on success stores the identity the client assigned to the created
item as the local resource id before refreshing local fields via the
read handler; a failed create call passes its error through. -/
theorem C8_create_stores_identity_then_reads :
    (∀ (d : UserState) (usersCreate : List User → Except GoError String)
       (res : Except GoError (List User)),
      resourceUserCreate d usersCreate res =
        match usersCreate [userCreateItem d] with
        | .error err => (d, some err)
        | .ok createdID => resourceUserRead { d with id := createdID } res) ∧
    (∀ (d : UserGroupState)
       (userGroupsCreate : List UserGroup → Except GoError String)
       (res : Except GoError (List UserGroup)),
      resourceUserGroupCreate d userGroupsCreate res =
        match userGroupsCreate [userGroupCreateItem d] with
        | .error err => (d, some err)
        | .ok createdID =>
            resourceUserGroupRead { d with id := createdID } res) ∧
    (∀ (d : ProxyState) (proxiesCreate : List Proxy → Except GoError String)
       (res : Except GoError (List Proxy)),
      resourceProxyCreate d proxiesCreate res =
        match proxiesCreate [proxyCreateItem d] with
        | .error err => (d, some err)
        | .ok createdID => resourceProxyRead { d with id := createdID } res) := by
  refine ⟨?_, ?_, ?_⟩ <;> intros <;> rfl

/-- C9, counterexample: in a user create whose remote create call
succeeds (assigning identity "5") and whose refresh read then fails, the
returned error is the read's error but the resource id has been changed
from "42" to "5", so the local state is not left unchanged. -/
theorem C9_counterexample :
    (resourceUserCreate
        { id := "42", username := "u", password := "p", roleid := "r",
          name := "n", surname := "s", groups := [] }
        (fun _ => .ok "5") (.error "boom")).2 = some "boom" ∧
    (resourceUserCreate
        { id := "42", username := "u", password := "p", roleid := "r",
          name := "n", surname := "s", groups := [] }
        (fun _ => .ok "5") (.error "boom")).1.id = "5" ∧
    ("5" : String) ≠ "42" := by
  exact ⟨rfl, rfl, by decide⟩

/-- C9 (amended): if the operation's own remote call fails, the error is
returned unchanged and the local state is exactly as before; delete never
modifies local state; if the refresh read after a successful update fails
the state is also unchanged.  The one exception is create: when the
create call succeeded and the refresh read's lookup fails, the error is
returned but the resource id has already been set to the created
identity (all other fields unchanged). -/
theorem C9_amended_atomicity :
    ((∀ (d : UserState) (e : GoError),
       userRead d (.error e) = (d, some e)) ∧
     (∀ (d : UserState) (f : List User → Except GoError String)
        (res : Except GoError (List User)),
       match f [userCreateItem d] with
       | .error e => resourceUserCreate d f res = (d, some e)
       | .ok createdID =>
         match res with
         | .error e =>
             resourceUserCreate d f res = ({ d with id := createdID }, some e)
         | .ok _ => True) ∧
     (∀ (d : UserState) (f : List User → Option GoError)
        (res : Except GoError (List User)),
       match f [userUpdateItem d] with
       | some e => resourceUserUpdate d f res = (d, some e)
       | none =>
         match res with
         | .error e => resourceUserUpdate d f res = (d, some e)
         | .ok _ => True) ∧
     (∀ (d : UserState) (f : List String → Option GoError),
       (resourceUserDelete d f).1 = d)) ∧
    ((∀ (d : UserGroupState) (e : GoError),
       userGroupRead d (.error e) = (d, some e)) ∧
     (∀ (d : UserGroupState) (f : List UserGroup → Except GoError String)
        (res : Except GoError (List UserGroup)),
       match f [userGroupCreateItem d] with
       | .error e => resourceUserGroupCreate d f res = (d, some e)
       | .ok createdID =>
         match res with
         | .error e =>
             resourceUserGroupCreate d f res =
               ({ d with id := createdID }, some e)
         | .ok _ => True) ∧
     (∀ (d : UserGroupState) (f : List UserGroup → Option GoError)
        (res : Except GoError (List UserGroup)),
       match f [userGroupUpdateItem d] with
       | some e => resourceUserGroupUpdate d f res = (d, some e)
       | none =>
         match res with
         | .error e => resourceUserGroupUpdate d f res = (d, some e)
         | .ok _ => True) ∧
     (∀ (d : UserGroupState) (f : List String → Option GoError),
       (resourceUserGroupDelete d f).1 = d)) ∧
    ((∀ (d : ProxyState) (e : GoError),
       proxyRead d (.error e) = (d, some e)) ∧
     (∀ (d : ProxyState) (f : List Proxy → Except GoError String)
        (res : Except GoError (List Proxy)),
       match f [proxyCreateItem d] with
       | .error e => resourceProxyCreate d f res = (d, some e)
       | .ok createdID =>
         match res with
         | .error e =>
             resourceProxyCreate d f res = ({ d with id := createdID }, some e)
         | .ok _ => True) ∧
     (∀ (d : ProxyState) (f : List Proxy → Option GoError)
        (res : Except GoError (List Proxy)),
       match f [proxyUpdateItem d] with
       | some e => resourceProxyUpdate d f res = (d, some e)
       | none =>
         match res with
         | .error e => resourceProxyUpdate d f res = (d, some e)
         | .ok _ => True) ∧
     (∀ (d : ProxyState) (f : List String → Option GoError),
       (resourceProxyDelete d f).1 = d)) := by
  refine ⟨⟨?_, ?_, ?_, ?_⟩, ⟨?_, ?_, ?_, ?_⟩, ⟨?_, ?_, ?_, ?_⟩⟩
  case _ => intro d e; rfl
  case _ =>
    intro d f res
    cases h : f [userCreateItem d] with
    | error e => simp [resourceUserCreate, h]
    | ok c =>
      cases res with
      | error e2 => simp [resourceUserCreate, resourceUserRead, userRead, h]
      | ok l => trivial
  case _ =>
    intro d f res
    cases h : f [userUpdateItem d] with
    | some e => simp [resourceUserUpdate, h]
    | none =>
      cases res with
      | error e2 => simp [resourceUserUpdate, resourceUserRead, userRead, h]
      | ok l => trivial
  case _ => intro d f; rfl
  case _ => intro d e; rfl
  case _ =>
    intro d f res
    cases h : f [userGroupCreateItem d] with
    | error e => simp [resourceUserGroupCreate, h]
    | ok c =>
      cases res with
      | error e2 =>
        simp [resourceUserGroupCreate, resourceUserGroupRead, userGroupRead, h]
      | ok l => trivial
  case _ =>
    intro d f res
    cases h : f [userGroupUpdateItem d] with
    | some e => simp [resourceUserGroupUpdate, h]
    | none =>
      cases res with
      | error e2 =>
        simp [resourceUserGroupUpdate, resourceUserGroupRead, userGroupRead, h]
      | ok l => trivial
  case _ => intro d f; rfl
  case _ => intro d e; rfl
  case _ =>
    intro d f res
    cases h : f [proxyCreateItem d] with
    | error e => simp [resourceProxyCreate, h]
    | ok c =>
      cases res with
      | error e2 => simp [resourceProxyCreate, resourceProxyRead, proxyRead, h]
      | ok l => trivial
  case _ =>
    intro d f res
    cases h : f [proxyUpdateItem d] with
    | some e => simp [resourceProxyUpdate, h]
    | none =>
      cases res with
      | error e2 => simp [resourceProxyUpdate, resourceProxyRead, proxyRead, h]
      | ok l => trivial
  case _ => intro d f; rfl

/-- C2, counterexample: the proxy data-source read with no lookup
attribute set (empty name) returns the locally synthesized error
"no proxy lookup attribute" even though the remote lookup result carries
no error at all — an error that is neither a remote error passed through
nor the "multiple records found" family. -/
theorem C2_counterexample :
    (dataProxyRead
        { id := "", name := "", operating_mode := 0, description := "",
          tls_connect := 1, tls_accept := 1, tls_issuer := "",
          tls_subject := "", tls_psk_identity := "", tls_psk := "",
          proxy_address := "" }
        (.ok [])).2 = some (errorsNew "no proxy lookup attribute") ∧
    errorsNew "no proxy lookup attribute" ≠ errorsNew "multiple records found" ∧
    errorsNew "no proxy lookup attribute" ≠ errorsNew "multiple proxys found" := by
  exact ⟨rfl, by decide, by decide⟩

/-- C2 (amended): every error a handler returns is either an error of a
remote client call passed through unmodified, or one of the locally
synthesized errors: the per-entity "multiple Users/UserGroups/proxys
found" when a lookup returns more than one record, or
"no proxy lookup attribute" from the proxy data-source read when no
lookup attribute is set.  (resourceUserRead, dataUserRead,
resourceUserGroupRead, dataUserGroupRead and resourceProxyRead all
delegate to the common read functions covered below.) -/
theorem C2_amended_error_provenance :
    ((∀ (d : UserState) (res : Except GoError (List User)),
       OptErr (userRead d res).2
         (fun e => res = .error e ∨ e = errorsNew "multiple Users found")) ∧
     (∀ (d : UserState) (usersCreate : List User → Except GoError String)
        (res : Except GoError (List User)),
       OptErr (resourceUserCreate d usersCreate res).2
         (fun e => usersCreate [userCreateItem d] = .error e ∨
           res = .error e ∨ e = errorsNew "multiple Users found")) ∧
     (∀ (d : UserState) (usersUpdate : List User → Option GoError)
        (res : Except GoError (List User)),
       OptErr (resourceUserUpdate d usersUpdate res).2
         (fun e => usersUpdate [userUpdateItem d] = some e ∨
           res = .error e ∨ e = errorsNew "multiple Users found")) ∧
     (∀ (d : UserState) (del : List String → Option GoError),
       OptErr (resourceUserDelete d del).2 (fun e => del [d.id] = some e))) ∧
    ((∀ (d : UserGroupState) (res : Except GoError (List UserGroup)),
       OptErr (userGroupRead d res).2
         (fun e => res = .error e ∨
           e = errorsNew "multiple UserGroups found")) ∧
     (∀ (d : UserGroupState)
        (userGroupsCreate : List UserGroup → Except GoError String)
        (res : Except GoError (List UserGroup)),
       OptErr (resourceUserGroupCreate d userGroupsCreate res).2
         (fun e => userGroupsCreate [userGroupCreateItem d] = .error e ∨
           res = .error e ∨ e = errorsNew "multiple UserGroups found")) ∧
     (∀ (d : UserGroupState)
        (userGroupsUpdate : List UserGroup → Option GoError)
        (res : Except GoError (List UserGroup)),
       OptErr (resourceUserGroupUpdate d userGroupsUpdate res).2
         (fun e => userGroupsUpdate [userGroupUpdateItem d] = some e ∨
           res = .error e ∨ e = errorsNew "multiple UserGroups found")) ∧
     (∀ (d : UserGroupState) (del : List String → Option GoError),
       OptErr (resourceUserGroupDelete d del).2
         (fun e => del [d.id] = some e))) ∧
    ((∀ (d : ProxyState) (res : Except GoError (List Proxy)),
       OptErr (proxyRead d res).2
         (fun e => res = .error e ∨ e = errorsNew "multiple proxys found")) ∧
     (∀ (d : ProxyState) (res : Except GoError (List Proxy)),
       OptErr (dataProxyRead d res).2
         (fun e => res = .error e ∨ e = errorsNew "multiple proxys found" ∨
           e = errorsNew "no proxy lookup attribute")) ∧
     (∀ (d : ProxyState) (proxiesCreate : List Proxy → Except GoError String)
        (res : Except GoError (List Proxy)),
       OptErr (resourceProxyCreate d proxiesCreate res).2
         (fun e => proxiesCreate [proxyCreateItem d] = .error e ∨
           res = .error e ∨ e = errorsNew "multiple proxys found")) ∧
     (∀ (d : ProxyState) (proxiesUpdate : List Proxy → Option GoError)
        (res : Except GoError (List Proxy)),
       OptErr (resourceProxyUpdate d proxiesUpdate res).2
         (fun e => proxiesUpdate [proxyUpdateItem d] = some e ∨
           res = .error e ∨ e = errorsNew "multiple proxys found")) ∧
     (∀ (d : ProxyState) (del : List String → Option GoError),
       OptErr (resourceProxyDelete d del).2
         (fun e => del [d.id] = some e))) := by
  refine ⟨⟨?_, ?_, ?_, ?_⟩, ⟨?_, ?_, ?_, ?_⟩, ⟨?_, ?_, ?_, ?_, ?_⟩⟩
  case _ =>
    intro d res
    rcases res with e | l
    · simp [userRead, OptErr]
    · rcases l with _ | ⟨t, _ | ⟨t2, rest⟩⟩ <;>
        simp [userRead, OptErr, errorsNew]
  case _ =>
    intro d f res
    cases h : f [userCreateItem d] with
    | error e => simp [resourceUserCreate, h, OptErr]
    | ok c =>
      rcases res with e2 | l
      · simp [resourceUserCreate, resourceUserRead, userRead, h, OptErr]
      · rcases l with _ | ⟨t, _ | ⟨t2, rest⟩⟩ <;>
          simp [resourceUserCreate, resourceUserRead, userRead, h, OptErr,
            errorsNew]
  case _ =>
    intro d f res
    cases h : f [userUpdateItem d] with
    | some e => simp [resourceUserUpdate, h, OptErr]
    | none =>
      rcases res with e2 | l
      · simp [resourceUserUpdate, resourceUserRead, userRead, h, OptErr]
      · rcases l with _ | ⟨t, _ | ⟨t2, rest⟩⟩ <;>
          simp [resourceUserUpdate, resourceUserRead, userRead, h, OptErr,
            errorsNew]
  case _ =>
    intro d del
    cases h : del [d.id] <;> simp [resourceUserDelete, h, OptErr]
  case _ =>
    intro d res
    rcases res with e | l
    · simp [userGroupRead, OptErr]
    · rcases l with _ | ⟨t, _ | ⟨t2, rest⟩⟩ <;>
        simp [userGroupRead, OptErr, errorsNew]
  case _ =>
    intro d f res
    cases h : f [userGroupCreateItem d] with
    | error e => simp [resourceUserGroupCreate, h, OptErr]
    | ok c =>
      rcases res with e2 | l
      · simp [resourceUserGroupCreate, resourceUserGroupRead, userGroupRead,
          h, OptErr]
      · rcases l with _ | ⟨t, _ | ⟨t2, rest⟩⟩ <;>
          simp [resourceUserGroupCreate, resourceUserGroupRead, userGroupRead,
            h, OptErr, errorsNew]
  case _ =>
    intro d f res
    cases h : f [userGroupUpdateItem d] with
    | some e => simp [resourceUserGroupUpdate, h, OptErr]
    | none =>
      rcases res with e2 | l
      · simp [resourceUserGroupUpdate, resourceUserGroupRead, userGroupRead,
          h, OptErr]
      · rcases l with _ | ⟨t, _ | ⟨t2, rest⟩⟩ <;>
          simp [resourceUserGroupUpdate, resourceUserGroupRead, userGroupRead,
            h, OptErr, errorsNew]
  case _ =>
    intro d del
    cases h : del [d.id] <;> simp [resourceUserGroupDelete, h, OptErr]
  case _ =>
    intro d res
    rcases res with e | l
    · simp [proxyRead, OptErr]
    · rcases l with _ | ⟨p, _ | ⟨p2, rest⟩⟩ <;>
        simp [proxyRead, OptErr, errorsNew]
  case _ =>
    intro d res
    by_cases hn : d.name = ""
    · simp [dataProxyRead, ProxyState.getOk, hn, OptErr, errorsNew]
    · rcases res with e | l
      · simp [dataProxyRead, ProxyState.getOk, hn, proxyRead, OptErr]
      · rcases l with _ | ⟨p, _ | ⟨p2, rest⟩⟩ <;>
          simp [dataProxyRead, ProxyState.getOk, hn, proxyRead, OptErr,
            errorsNew]
  case _ =>
    intro d f res
    cases h : f [proxyCreateItem d] with
    | error e => simp [resourceProxyCreate, h, OptErr]
    | ok c =>
      rcases res with e2 | l
      · simp [resourceProxyCreate, resourceProxyRead, proxyRead, h, OptErr]
      · rcases l with _ | ⟨p, _ | ⟨p2, rest⟩⟩ <;>
          simp [resourceProxyCreate, resourceProxyRead, proxyRead, h, OptErr,
            errorsNew]
  case _ =>
    intro d f res
    cases h : f [proxyUpdateItem d] with
    | some e => simp [resourceProxyUpdate, h, OptErr]
    | none =>
      rcases res with e2 | l
      · simp [resourceProxyUpdate, resourceProxyRead, proxyRead, h, OptErr]
      · rcases l with _ | ⟨p, _ | ⟨p2, rest⟩⟩ <;>
          simp [resourceProxyUpdate, resourceProxyRead, proxyRead, h, OptErr,
            errorsNew]
  case _ =>
    intro d del
    cases h : del [d.id] <;> simp [resourceProxyDelete, h, OptErr]

end ZabbixProvider
